import Mathlib

/-!
# Verification of the agent-set pipeline engine and its dashboard components

The repository is a dashboard over a remote agent-pipeline service. The
dashboard components (`agent_set_pipeline.py`, `agent_manager.py`,
`direct_chat.py`) are present in the source tree and are embedded here
directly. The pipeline execution engine itself (Sectionizer, Stage
Executor, Pipeline Runner, Job Tracker) lives behind the service API and
is not part of the source tree; those components are modelled from the
specification, as marked on each definition.
-/

namespace GenaiPipeline

/-! ## Prompt templates and placeholder substitution -/

/-- Modelled from the spec: the engine's prompt templates are absent from the
source tree. Per the spec's design note, a template is a typed sequence of
parts, each either a literal or a named placeholder. -/
inductive TemplatePart where
  | lit (s : String)
  | ph (name : String)
deriving DecidableEq, Repr

/-- Modelled from the spec: a user prompt template is an ordered list of parts. -/
abbrev Template := List TemplatePart

/-- Modelled from the spec: the accumulated placeholder bindings available to a
stage (section title/content, retrieved context, named outputs of prior
stages), as an association list from placeholder name to value. -/
abbrev PhContext := List (String × String)

/-- Modelled from the spec: placeholder lookup; unresolved placeholders are
treated as the empty string, never a hard failure. -/
def lookupPh (ctx : PhContext) (n : String) : String :=
  match ctx.find? (fun p => p.1 == n) with
  | some p => p.2
  | none => ""

/-- Modelled from the spec: rendering substitutes every recognized placeholder
with its bound value. -/
def renderTemplate (t : Template) (ctx : PhContext) : String :=
  t.foldr (fun part acc =>
    (match part with
     | TemplatePart.lit s => s
     | TemplatePart.ph n => lookupPh ctx n) ++ acc) ""

/-! ## Agents and invocation -/

/-- Modelled from the spec: an agent definition from the Agent Catalog —
identity, model name, prompts; the fields the engine reads during a run. -/
structure AgentDefinition where
  name : String
  model_name : String
  system_prompt : String
  user_prompt_template : Template
deriving DecidableEq, Repr

/-- Modelled from the spec: the Model Invoker collaborator — given a rendered
prompt and a model name it returns generated text or fails. -/
abbrev Invoker := String → String → Except String String

/-- Modelled from the spec: the result of one agent invocation — agent
identity, rendered prompt, success flag, output text or error detail,
model name. -/
structure AgentInvocationResult where
  agent_name : String
  rendered_prompt : String
  success : Bool
  output : String
  error : String
  model_name : String
deriving DecidableEq, Repr

/-- Modelled from the spec: one agent invocation — render the template against
the context and call the Model Invoker; a failure is captured as a failed
result with error detail, never thrown. -/
def invokeAgent (invoke : Invoker) (a : AgentDefinition) (ctx : PhContext) :
    AgentInvocationResult :=
  match invoke (renderTemplate a.user_prompt_template ctx) a.model_name with
  | Except.ok out =>
      { agent_name := a.name,
        rendered_prompt := renderTemplate a.user_prompt_template ctx,
        success := true, output := out, error := "",
        model_name := a.model_name }
  | Except.error e =>
      { agent_name := a.name,
        rendered_prompt := renderTemplate a.user_prompt_template ctx,
        success := false, output := "", error := e,
        model_name := a.model_name }

/-! ## Stages and the Stage Executor -/

/-- Modelled from the spec: a stage's execution mode — parallel, sequential,
or batched. -/
inductive ExecutionMode where
  | parallel
  | sequential
  | batched
deriving DecidableEq, Repr

/-- Modelled from the spec: a stage — name, ordered list of agent-instance
references (an agent may repeat), execution mode. -/
structure Stage where
  stage_name : String
  agents : List AgentDefinition
  execution_mode : ExecutionMode
deriving Repr

/-- Modelled from the spec: a stage result — stage name, execution mode used,
ordered list of invocation results (submission order). -/
structure StageResult where
  stage_name : String
  execution_mode : ExecutionMode
  results : List AgentInvocationResult
deriving Repr

/-- Splits a list into chunks of size at most `n + 1`, preserving order:
the concurrency groups of the batched execution mode. -/
def chunksOf (n : Nat) (l : List α) : List (List α) :=
  match l with
  | [] => []
  | x :: xs => (x :: xs.take n) :: chunksOf n (xs.drop n)
termination_by l.length
decreasing_by simp [List.length_drop]; omega

/-- Modelled from the spec: the reserved placeholder through which a later
instance of a sequential stage sees the immediately preceding instance's
output. -/
def reservedPrevPh : String := "previous_output"

/-- Modelled from the spec: sequential execution — agent instances run one at
a time in list order, each seeing the preceding instance's output under the
reserved placeholder. -/
def runSequential (invoke : Invoker) (ctx : PhContext) :
    List AgentDefinition → String → List AgentInvocationResult
  | [], _ => []
  | a :: rest, prev =>
      let r := invokeAgent invoke a ((reservedPrevPh, prev) :: ctx)
      r :: runSequential invoke ctx rest r.output

/-- Modelled from the spec: the Stage Executor — runs one stage against one
section's accumulated context honoring the stage's execution mode; every
agent instance yields exactly one result and failures are captured, never
thrown.  `batchSize` is the global configuration value bounding batched
concurrency. -/
def runStage (batchSize : Nat) (invoke : Invoker) (stage : Stage)
    (ctx : PhContext) : StageResult :=
  let results :=
    match stage.execution_mode with
    | ExecutionMode.parallel => stage.agents.map (fun a => invokeAgent invoke a ctx)
    | ExecutionMode.sequential => runSequential invoke ctx stage.agents ""
    | ExecutionMode.batched =>
        ((chunksOf (batchSize - 1) stage.agents).map
          (fun group => group.map (fun a => invokeAgent invoke a ctx))).flatten
  { stage_name := stage.stage_name, execution_mode := stage.execution_mode,
    results := results }

theorem chunksOf_join (n : Nat) : (l : List α) → (chunksOf n l).flatten = l
  | [] => by simp [chunksOf]
  | x :: xs => by
      rw [chunksOf]
      simp only [List.flatten_cons, chunksOf_join n (xs.drop n), List.cons_append]
      rw [List.take_append_drop]
termination_by l => l.length
decreasing_by simp [List.length_drop]; omega

theorem join_map_map_chunksOf (n : Nat) (f : α → β) (l : List α) :
    ((chunksOf n l).map (fun g => g.map f)).flatten = l.map f := by
  rw [← List.map_flatten, chunksOf_join]

/-! ## Sections and the Pipeline Runner -/

/-- Modelled from the spec: a section — an independently processed unit of the
input text, with a title and content. -/
structure DocSection where
  title : String
  content : String
deriving DecidableEq, Repr

/-- Modelled from the spec: a section result — section title/content, ordered
stage results, and the derived consolidated text for the section. -/
structure SectionResult where
  section_title : String
  section_content : String
  stage_results : List StageResult
  consolidated : String
deriving Repr

/-- Modelled from the spec: an agent set — identity, name, ordered stages. -/
structure AgentSet where
  name : String
  stages : List Stage
deriving Repr

/-- Modelled from the spec: per-stage consolidation — concatenates the stage's
successful agent outputs uniformly. -/
def consolidateStage (sr : StageResult) : String :=
  String.intercalate "\n\n"
    ((sr.results.filter (fun r => r.success)).map (fun r => r.output))

/-- Modelled from the spec: the placeholder under which a stage exposes its
consolidated output to later stages. -/
def stageOutputPh (stageName : String) : String := stageName ++ "_output"

/-- Modelled from the spec: the placeholder bindings a section starts with —
its title, its content and the retrieved context. -/
def baseCtx (sec : DocSection) (ragContext : String) : PhContext :=
  [("section_title", sec.title), ("section_content", sec.content),
   ("rag_context", ragContext)]

/-- Modelled from the spec: the Pipeline Runner's stage loop — stages run
strictly in declared order; each stage's consolidated output is added to the
placeholder context seen by all later stages. -/
def runStages (batchSize : Nat) (invoke : Invoker) :
    List Stage → PhContext → List StageResult
  | [], _ => []
  | st :: rest, ctx =>
      let sr := runStage batchSize invoke st ctx
      sr :: runStages batchSize invoke rest
        ((stageOutputPh st.stage_name, consolidateStage sr) :: ctx)

/-- Modelled from the spec: processing of one section — run all stages in
order from the section's base context; the section's consolidated text is the
final stage's consolidated output. -/
def runSection (batchSize : Nat) (invoke : Invoker) (stages : List Stage)
    (ragContext : String) (sec : DocSection) : SectionResult :=
  let srs := runStages batchSize invoke stages (baseCtx sec ragContext)
  { section_title := sec.title, section_content := sec.content,
    stage_results := srs,
    consolidated :=
      match srs.getLast? with
      | some sr => consolidateStage sr
      | none => "" }

/-- Modelled from the spec: the final result of a pipeline run, with the
derived counters. -/
structure PipelineResult where
  title : String
  total_sections : Nat
  total_stages_executed : Nat
  total_agents_executed : Nat
  consolidated_output : String
  section_results : List SectionResult
deriving Repr

instance : Inhabited PipelineResult :=
  ⟨{ title := "", total_sections := 0, total_stages_executed := 0,
     total_agents_executed := 0, consolidated_output := "",
     section_results := [] }⟩

/-- Modelled from the spec: the Pipeline Runner — processes every section
independently, counts executed stages and agents from the produced results,
and joins all section consolidated texts, in section order, prefixed by
title. -/
def executePipeline (batchSize : Nat) (invoke : Invoker) (title : String)
    (agentSet : AgentSet) (sections : List DocSection) (ragContext : String) :
    PipelineResult :=
  let sectionResults :=
    sections.map (runSection batchSize invoke agentSet.stages ragContext)
  { title := title,
    total_sections := sections.length,
    total_stages_executed :=
      (sectionResults.map (fun s => s.stage_results.length)).sum,
    total_agents_executed :=
      (sectionResults.map (fun s =>
        (s.stage_results.map (fun sr => sr.results.length)).sum)).sum,
    consolidated_output :=
      String.intercalate "\n\n"
        (sectionResults.map (fun s => "## " ++ s.section_title ++ "\n\n" ++ s.consolidated)),
    section_results := sectionResults }

/-! ## The Job Tracker -/

/-- Modelled from the spec: job status — `QUEUED → PROCESSING → {COMPLETED |
FAILED}`, the last two terminal. -/
inductive JobStatus where
  | QUEUED
  | PROCESSING
  | COMPLETED
  | FAILED
deriving DecidableEq, Repr

/-- Modelled from the spec: a terminal status is COMPLETED or FAILED. -/
def JobStatus.isTerminal : JobStatus → Bool
  | JobStatus.COMPLETED => true
  | JobStatus.FAILED => true
  | _ => false

/-- Modelled from the spec: an asynchronous pipeline job — status, progress
percentage, progress message, result (set only on COMPLETED), error detail
(set only on FAILED). -/
structure PipelineJob where
  status : JobStatus
  progress : Nat
  progress_message : String
  result : Option PipelineResult
  error : Option String
deriving Repr

/-- Modelled from the spec: the Job Tracker's job table — jobs keyed by
identifier, plus the next fresh identifier. -/
structure TrackerState where
  jobs : List (Nat × PipelineJob)
  nextId : Nat

/-- Modelled from the spec: resumable lookup of a job by identifier. -/
def findJob (s : TrackerState) (id : Nat) : Option PipelineJob :=
  (s.jobs.find? (fun p => p.1 == id)).map (fun p => p.2)

/-- Modelled from the spec: job submission — creates the job in status QUEUED
with zero progress and returns its identifier immediately. -/
def submitJob (s : TrackerState) : TrackerState × Nat :=
  ({ jobs := s.jobs ++ [(s.nextId,
       { status := JobStatus.QUEUED, progress := 0,
         progress_message := "Queued", result := none, error := none })],
     nextId := s.nextId + 1 }, s.nextId)

/-- Updates the entry of `id` through `f`, keys untouched. -/
def mapJob (s : TrackerState) (id : Nat) (f : PipelineJob → PipelineJob) :
    TrackerState :=
  { s with jobs := s.jobs.map (fun p => if p.1 == id then (p.1, f p.2) else p) }

/-- Modelled from the spec: the transition to PROCESSING when execution
actually starts; only a QUEUED job is affected. -/
def startJob (s : TrackerState) (id : Nat) : TrackerState :=
  mapJob s id (fun j =>
    if j.status = JobStatus.QUEUED then { j with status := JobStatus.PROCESSING } else j)

/-- Modelled from the spec: a progress update by the running Pipeline Runner;
only a PROCESSING job is affected — a terminal job is never mutated. -/
def updateProgress (s : TrackerState) (id : Nat) (p : Nat) (msg : String) :
    TrackerState :=
  mapJob s id (fun j =>
    if j.status = JobStatus.PROCESSING then
      { j with progress := p, progress_message := msg } else j)

/-- Modelled from the spec: the transition to COMPLETED, carrying the full
result; only a PROCESSING job is affected. -/
def completeJob (s : TrackerState) (id : Nat) (res : PipelineResult) :
    TrackerState :=
  mapJob s id (fun j =>
    if j.status = JobStatus.PROCESSING then
      { j with status := JobStatus.COMPLETED, progress := 100,
               progress_message := "Completed", result := some res } else j)

/-- Modelled from the spec: the transition to FAILED, carrying an error detail
and discarding partial results; only a PROCESSING job is affected. -/
def failJob (s : TrackerState) (id : Nat) (err : String) : TrackerState :=
  mapJob s id (fun j =>
    if j.status = JobStatus.PROCESSING then
      { j with status := JobStatus.FAILED, error := some err, result := none } else j)

/-- Modelled from the spec: the operations through which the Job Tracker's
table is ever mutated. -/
inductive TrackerOp where
  | submit
  | start (id : Nat)
  | progress (id : Nat) (p : Nat) (msg : String)
  | complete (id : Nat) (res : PipelineResult)
  | fail (id : Nat) (err : String)

/-- Applies one tracker operation to the job table. -/
def applyOp (s : TrackerState) : TrackerOp → TrackerState
  | TrackerOp.submit => (submitJob s).1
  | TrackerOp.start id => startJob s id
  | TrackerOp.progress id p msg => updateProgress s id p msg
  | TrackerOp.complete id res => completeJob s id res
  | TrackerOp.fail id err => failJob s id err

/-- Modelled from the spec: the client-facing error taxonomy for queries and
submission. -/
inductive ErrorKind where
  | NotFound
  | NotReady
  | InvalidInput
deriving DecidableEq, Repr

/-- Modelled from the spec: `status(jobId)` — fails with NotFound exactly for
an unknown identifier. -/
def statusQuery (s : TrackerState) (id : Nat) : Except ErrorKind PipelineJob :=
  match findJob s id with
  | none => Except.error ErrorKind.NotFound
  | some j => Except.ok j

/-- Modelled from the spec: `result(jobId)` — NotFound for an unknown
identifier, the full result once COMPLETED, NotReady otherwise. -/
def resultQuery (s : TrackerState) (id : Nat) :
    Except ErrorKind PipelineResult :=
  match findJob s id with
  | none => Except.error ErrorKind.NotFound
  | some j =>
      if j.status = JobStatus.COMPLETED then Except.ok (j.result.getD default)
      else Except.error ErrorKind.NotReady

/-- Modelled from the spec: the progress percentage reported after
`completed` of `total` sections. -/
def sectionProgress (completed total : Nat) : Nat := completed * 100 / total

/-- Modelled from the spec: the tracker state after execution has started and
the first `k` of `n` sections have completed, each completion emitting a
progress update. -/
def updatesAfter (s : TrackerState) (id n k : Nat) : TrackerState :=
  (List.range k).foldl
    (fun st j => updateProgress st id (sectionProgress (j + 1) n) "Section completed")
    (startJob s id)

/-- Modelled from the spec: a full tracked run — start, one progress update
per completed section, then completion with the full result. -/
def runTracked (batchSize : Nat) (invoke : Invoker) (title : String)
    (agentSet : AgentSet) (sections : List DocSection) (ragContext : String)
    (s : TrackerState) (id : Nat) : TrackerState :=
  completeJob (updatesAfter s id sections.length sections.length) id
    (executePipeline batchSize invoke title agentSet sections ragContext)

/-- Modelled from the spec: the legal status transitions of a job. -/
def jobStep : JobStatus → JobStatus → Bool
  | JobStatus.QUEUED, JobStatus.PROCESSING => true
  | JobStatus.PROCESSING, JobStatus.COMPLETED => true
  | JobStatus.PROCESSING, JobStatus.FAILED => true
  | _, _ => false

/-- A status trace is valid when every consecutive pair is a legal
transition. -/
def validTrace : List JobStatus → Bool
  | [] => true
  | [_] => true
  | a :: b :: rest => jobStep a b && validTrace (b :: rest)

/-! ## Dashboard code embedded from the source tree -/

/-- A Python whitespace character, as stripped by `str.strip()`. -/
def isPySpace (c : Char) : Bool :=
  c == ' ' || c == '\t' || c == '\n' || c == '\x0d' || c == '\x0b' || c == '\x0c'

/-- Python's `str.strip()`: removes whitespace from both ends. -/
def pyStrip (s : String) : String :=
  String.mk (((s.data.dropWhile isPySpace).reverse.dropWhile isPySpace).reverse)

/-- From `agent_set_pipeline.py`, `agent_set_pipeline`, the run-button
handler: the submission is rejected (with the error message asking for at
least 10 characters) when `not text_input or len(text_input.strip()) < 10`;
otherwise the payload is posted. -/
def agent_set_pipeline_rejects (text_input : String) : Bool :=
  text_input.isEmpty || decide ((pyStrip text_input).length < 10)

/-- From `direct_chat.py`, `_render_agent_pipeline_tab`, the run-button
handler: same gate, `not user_query or len(user_query.strip()) < 10`. -/
def direct_chat_pipeline_rejects (user_query : String) : Bool :=
  user_query.isEmpty || decide ((pyStrip user_query).length < 10)

/-- The action `_show_pipeline_status` takes next, by status branch. -/
inductive ClientAction where
  | poll
  | fetchResult
  | showError
  | none
deriving DecidableEq, Repr

/-- From `agent_set_pipeline.py`, `_show_pipeline_status`: PROCESSING and
QUEUED poll again; only the COMPLETED branch requests the result endpoint;
FAILED shows the error. -/
def showPipelineStatusAction (status : String) : ClientAction :=
  if status == "PROCESSING" || status == "QUEUED" then ClientAction.poll
  else if status == "COMPLETED" then ClientAction.fetchResult
  else if status == "FAILED" then ClientAction.showError
  else ClientAction.none

/-- An agent record as the manager component reads it from the catalog. -/
structure AgentRec where
  id : Nat
  name : String
  is_active : Bool
  is_system_default : Bool
deriving DecidableEq, Repr

/-- An agent-set record as the manager component reads it from the catalog. -/
structure AgentSetRec where
  id : Nat
  name : String
  is_active : Bool
  is_system_default : Bool
deriving DecidableEq, Repr

/-- The HTTP requests the delete workflows of `agent_manager.py` can issue. -/
inductive ApiRequest where
  | postActivateAgent (id : Nat) (is_active : Bool)
  | deleteAgentHard (id : Nat)
  | putAgentSetActive (id : Nat) (is_active : Bool)
  | deleteAgentSetHard (id : Nat)
  | deleteAgentSetSoft (id : Nat)
deriving DecidableEq, Repr

/-- From `agent_manager.py`, `render_delete_agent`: system defaults are
refused outright; an active agent only offers the deactivate button (POST
`/activate` with `is_active=False`); only an inactive agent, after typing its
name and checking the confirmation box, offers the permanent delete (DELETE
`?soft_delete=false`). -/
def render_delete_agent (agent : AgentRec) (clickDeactivate : Bool)
    (confirm_name : String) (confirm_check : Bool) (clickDelete : Bool) :
    List ApiRequest :=
  if agent.is_system_default then []
  else if agent.is_active then
    if clickDeactivate then [ApiRequest.postActivateAgent agent.id false] else []
  else if confirm_name == agent.name && confirm_check then
    if clickDelete then [ApiRequest.deleteAgentHard agent.id] else []
  else []

/-- From `agent_manager.py`, `delete_agent_set`: permanent deletion issues
DELETE `?soft_delete=false`, soft deletion a plain DELETE. -/
def delete_agent_set (set_id : Nat) (permanent : Bool) : ApiRequest :=
  if permanent then ApiRequest.deleteAgentSetHard set_id
  else ApiRequest.deleteAgentSetSoft set_id

/-- From `agent_manager.py`, `render_view_agent_sets`, the delete
confirmation dialog: an active set only offers the deactivate button (PUT
with `is_active=False` via `deactivate_agent_set`); only an inactive set,
after its name is typed, offers `delete_agent_set(id, permanent=True)`. -/
def agent_set_delete_dialog (s : AgentSetRec) (clickDeactivate : Bool)
    (confirm_name : String) (clickDelete : Bool) : List ApiRequest :=
  if s.is_active then
    if clickDeactivate then [ApiRequest.putAgentSetActive s.id false] else []
  else if confirm_name == s.name then
    if clickDelete then [delete_agent_set s.id true] else []
  else []

/-- From `agent_manager.py`, `render_view_agent_sets`: the Delete button that
opens the dialog is rendered only for non-system-default sets. -/
def render_view_agent_sets_delete (s : AgentSetRec) (deleteFlag : Bool)
    (clickDeactivate : Bool) (confirm_name : String) (clickDelete : Bool) :
    List ApiRequest :=
  if !s.is_system_default && deleteFlag then
    agent_set_delete_dialog s clickDeactivate confirm_name clickDelete
  else []

/-- From `agent_manager.py`, `render_create_agent_set`, the add-stage
handler: the first selected agent's id is repeated `agent_count` times, then
each remaining selected agent's id is appended once, in selection order. -/
def buildStageAgentIds (selectedAgentIds : List Nat) (agent_count : Nat) :
    List Nat :=
  match selectedAgentIds with
  | [] => []
  | first :: rest => List.replicate agent_count first ++ rest

/-- A stage configuration as built by the stage builder. -/
structure StageConfig where
  stage_name : String
  agent_ids : List Nat
  execution_mode : String
  description : Option String
deriving DecidableEq, Repr

/-- From `agent_manager.py`, `render_create_agent_set`: the stage is appended
only when a stage name is given and at least one agent is selected. -/
def addStageToPipeline (stage_name stage_desc execution_mode : String)
    (selectedAgentIds : List Nat) (agent_count : Nat) : Option StageConfig :=
  if !stage_name.isEmpty && !selectedAgentIds.isEmpty then
    some { stage_name := stage_name,
           agent_ids := buildStageAgentIds selectedAgentIds agent_count,
           execution_mode := execution_mode,
           description := if stage_desc.isEmpty then none else some stage_desc }
  else none

/-! ## Helper lemmas -/

@[simp] lemma invokeAgent_agent_name (invoke : Invoker) (a : AgentDefinition)
    (ctx : PhContext) : (invokeAgent invoke a ctx).agent_name = a.name := by
  unfold invokeAgent
  cases invoke (renderTemplate a.user_prompt_template ctx) a.model_name <;> rfl

@[simp] lemma invokeAgent_model_name (invoke : Invoker) (a : AgentDefinition)
    (ctx : PhContext) : (invokeAgent invoke a ctx).model_name = a.model_name := by
  unfold invokeAgent
  cases invoke (renderTemplate a.user_prompt_template ctx) a.model_name <;> rfl

@[simp] lemma invokeAgent_rendered_prompt (invoke : Invoker)
    (a : AgentDefinition) (ctx : PhContext) :
    (invokeAgent invoke a ctx).rendered_prompt
      = renderTemplate a.user_prompt_template ctx := by
  unfold invokeAgent
  cases invoke (renderTemplate a.user_prompt_template ctx) a.model_name <;> rfl

lemma runSequential_map_ids (invoke : Invoker) (ctx : PhContext) :
    ∀ (agents : List AgentDefinition) (prev : String),
      (runSequential invoke ctx agents prev).map
          (fun r => (r.agent_name, r.model_name))
        = agents.map (fun a => (a.name, a.model_name))
  | [], _ => rfl
  | a :: rest, prev => by
      simp [runSequential, runSequential_map_ids invoke ctx rest]

/-- Every execution mode yields exactly one result per agent-instance
reference, in submission order. -/
lemma runStage_results_ids (batchSize : Nat) (invoke : Invoker)
    (stage : Stage) (ctx : PhContext) :
    (runStage batchSize invoke stage ctx).results.map
        (fun r => (r.agent_name, r.model_name))
      = stage.agents.map (fun a => (a.name, a.model_name)) := by
  unfold runStage
  cases stage.execution_mode
  case parallel => simp [List.map_map, Function.comp]
  case sequential => simpa using runSequential_map_ids invoke ctx stage.agents ""
  case batched =>
      simp only [List.map_flatten, List.map_map]
      rw [show (List.map (fun r : AgentInvocationResult => (r.agent_name, r.model_name)) ∘
            fun group : List AgentDefinition => group.map (fun a => invokeAgent invoke a ctx))
          = fun group : List AgentDefinition =>
              group.map (fun a => ((invokeAgent invoke a ctx).agent_name,
                (invokeAgent invoke a ctx).model_name)) from by
        funext g
        simp [List.map_map, Function.comp]]
      simp only [invokeAgent_agent_name, invokeAgent_model_name]
      exact join_map_map_chunksOf _ _ _

lemma runStage_results_length (batchSize : Nat) (invoke : Invoker)
    (stage : Stage) (ctx : PhContext) :
    (runStage batchSize invoke stage ctx).results.length
      = stage.agents.length := by
  have h := congrArg List.length (runStage_results_ids batchSize invoke stage ctx)
  simpa using h

/-! ## Concrete demonstration fixtures -/

/-- A demo actor agent. -/
def actorA : AgentDefinition :=
  { name := "actor-1", model_name := "gpt-4", system_prompt := "sys",
    user_prompt_template :=
      [TemplatePart.lit "Analyze: ", TemplatePart.ph "section_content"] }

/-- A second demo actor agent. -/
def actorB : AgentDefinition :=
  { name := "actor-2", model_name := "gpt-4", system_prompt := "sys",
    user_prompt_template :=
      [TemplatePart.lit "Review: ", TemplatePart.ph "section_content"] }

/-- A third demo actor agent, configured with a model the demo invoker
rejects — the simulated model error. -/
def actorC : AgentDefinition :=
  { name := "actor-3", model_name := "bad-model", system_prompt := "sys",
    user_prompt_template :=
      [TemplatePart.lit "Check: ", TemplatePart.ph "section_content"] }

/-- A demo critic agent whose template references the actor stage's output
placeholder. -/
def criticAgent : AgentDefinition :=
  { name := "critic", model_name := "gpt-4", system_prompt := "sys",
    user_prompt_template :=
      [TemplatePart.lit "Critique: ", TemplatePart.ph "actor_output"] }

/-- A demo invoker failing exactly on the model `bad-model`. -/
def demoInvoker : Invoker := fun _ model =>
  if model == "bad-model" then Except.error "model error"
  else Except.ok "generated output"

/-- A demo stage of three parallel actor instances. -/
def demoActorStage : Stage :=
  { stage_name := "actor", agents := [actorA, actorB, actorC],
    execution_mode := ExecutionMode.parallel }

/-- A demo critic stage of one sequential agent. -/
def demoCriticStage : Stage :=
  { stage_name := "critic", agents := [criticAgent],
    execution_mode := ExecutionMode.sequential }

/-- A demo section context. -/
def demoCtx : PhContext := baseCtx { title := "Intro", content := "body" } ""

/-! ## C1 -/

/-- C1: for every stage executed in any section, the StageResult contains
exactly one AgentInvocationResult per agent-instance reference, in the same
order as the stage's agent list, regardless of the execution mode and of
individual invocation failures; in particular with three parallel agent
instances of which one fails, the StageResult still has three entries, two
successful and one failed, and the pipeline proceeds to the next stage. -/
theorem stage_result_counts_every_instance :
    (∀ (batchSize : Nat) (invoke : Invoker) (stage : Stage) (ctx : PhContext),
        (runStage batchSize invoke stage ctx).results.length
            = stage.agents.length ∧
        (runStage batchSize invoke stage ctx).results.map
            (fun r => (r.agent_name, r.model_name))
          = stage.agents.map (fun a => (a.name, a.model_name))) ∧
    (runStage 2 demoInvoker demoActorStage demoCtx).results.length = 3 ∧
    ((runStage 2 demoInvoker demoActorStage demoCtx).results.filter
        (fun r => r.success)).length = 2 ∧
    ((runStage 2 demoInvoker demoActorStage demoCtx).results.filter
        (fun r => !r.success)).length = 1 ∧
    (runStages 2 demoInvoker [demoActorStage, demoCriticStage] demoCtx).length
      = 2 := by
  refine ⟨fun batchSize invoke stage ctx =>
    ⟨runStage_results_length batchSize invoke stage ctx,
     runStage_results_ids batchSize invoke stage ctx⟩, ?_, ?_, ?_, ?_⟩
  · rfl
  · rfl
  · rfl
  · rfl

/-! ## C2: stage ordering and placeholder flow -/

@[simp] lemma renderTemplate_nil (ctx : PhContext) :
    renderTemplate [] ctx = "" := rfl

@[simp] lemma renderTemplate_cons (p : TemplatePart) (t : Template)
    (ctx : PhContext) :
    renderTemplate (p :: t) ctx =
      (match p with
       | TemplatePart.lit s => s
       | TemplatePart.ph n => lookupPh ctx n) ++ renderTemplate t ctx := rfl

@[simp] lemma lookupPh_cons_self (k v : String) (ctx : PhContext) :
    lookupPh ((k, v) :: ctx) k = v := by
  simp [lookupPh, List.find?_cons_of_pos]

lemma lookupPh_cons_ne (k v n : String) (ctx : PhContext) (h : n ≠ k) :
    lookupPh ((k, v) :: ctx) n = lookupPh ctx n := by
  unfold lookupPh
  rw [List.find?_cons_of_neg]
  simp [Ne.symm h]

/-- A placeholder that occurs in a template surfaces its bound value verbatim
in the rendered prompt. -/
lemma render_contains_ph (ctx : PhContext) (n : String) :
    ∀ t : Template, TemplatePart.ph n ∈ t →
      (lookupPh ctx n).data <:+: (renderTemplate t ctx).data := by
  intro t h
  induction t with
  | nil => cases h
  | cons p rest ih =>
      rcases List.mem_cons.mp h with hp | hm
      · rw [← hp, renderTemplate_cons]
        exact ⟨[], (renderTemplate rest ctx).data, by simp [String.data_append]⟩
      · obtain ⟨s, t', ht⟩ := ih hm
        rw [renderTemplate_cons]
        refine ⟨(match p with
                 | TemplatePart.lit s => s
                 | TemplatePart.ph m => lookupPh ctx m).data ++ s, t', ?_⟩
        simp [String.data_append, ← ht]

lemma runSequential_mem (invoke : Invoker) (ctx : PhContext) :
    ∀ (agents : List AgentDefinition) (prev : String)
      (r : AgentInvocationResult), r ∈ runSequential invoke ctx agents prev →
      ∃ a ∈ agents, ∃ p,
        r = invokeAgent invoke a ((reservedPrevPh, p) :: ctx)
  | [], _, _, h => absurd h (List.not_mem_nil _)
  | a :: rest, prev, r, h => by
      rw [runSequential] at h
      rcases List.mem_cons.mp h with hp | hm
      · exact ⟨a, List.mem_cons_self a rest, prev, hp⟩
      · obtain ⟨a', ha', p, hp⟩ := runSequential_mem invoke ctx rest _ r hm
        exact ⟨a', List.mem_cons_of_mem a ha', p, hp⟩

/-- Every result of a stage is the invocation of one of the stage's agents,
whose prompt was rendered either directly against the stage's context or
against that context extended only with the reserved sequential
placeholder. -/
lemma runStage_mem_prompt (batchSize : Nat) (invoke : Invoker) (stage : Stage)
    (ctx : PhContext) :
    ∀ r ∈ (runStage batchSize invoke stage ctx).results,
      ∃ a ∈ stage.agents,
        r.rendered_prompt = renderTemplate a.user_prompt_template ctx ∨
        ∃ p, r.rendered_prompt
          = renderTemplate a.user_prompt_template ((reservedPrevPh, p) :: ctx) := by
  intro r hr
  unfold runStage at hr
  cases hmode : stage.execution_mode <;> rw [hmode] at hr <;> simp only [] at hr
  case parallel =>
      obtain ⟨a, ha, hra⟩ := List.mem_map.mp hr
      exact ⟨a, ha, Or.inl (by rw [← hra]; simp)⟩
  case sequential =>
      obtain ⟨a, ha, p, hp⟩ := runSequential_mem invoke ctx stage.agents "" r hr
      exact ⟨a, ha, Or.inr ⟨p, by rw [hp]; simp⟩⟩
  case batched =>
      obtain ⟨g, hg, hrg⟩ := List.mem_flatten.mp hr
      obtain ⟨group, hgroup, hgmap⟩ := List.mem_map.mp hg
      rw [← hgmap] at hrg
      obtain ⟨a, ha, hra⟩ := List.mem_map.mp hrg
      have hmem : a ∈ stage.agents := by
        rw [← chunksOf_join (batchSize - 1) stage.agents]
        exact List.mem_flatten.mpr ⟨group, hgroup, ha⟩
      exact ⟨a, hmem, Or.inl (by rw [← hra]; simp)⟩

/-- C2: within every section, stages run strictly in declared order — for a
two-stage list, stage 2 is evaluated only in the context extended with stage
1's consolidated output — and when every stage-2 agent's template references
stage 1's output placeholder, every rendered stage-2 prompt contains stage
1's consolidated text verbatim. -/
theorem stages_run_in_order_and_see_prior_output
    (batchSize : Nat) (invoke : Invoker) (s1 s2 : Stage) (ctx : PhContext) :
    runStages batchSize invoke [s1, s2] ctx
      = [runStage batchSize invoke s1 ctx,
         runStage batchSize invoke s2
           ((stageOutputPh s1.stage_name,
             consolidateStage (runStage batchSize invoke s1 ctx)) :: ctx)] ∧
    ((∀ a ∈ s2.agents,
        TemplatePart.ph (stageOutputPh s1.stage_name) ∈ a.user_prompt_template) →
     stageOutputPh s1.stage_name ≠ reservedPrevPh →
     ∀ r ∈ (runStage batchSize invoke s2
              ((stageOutputPh s1.stage_name,
                consolidateStage (runStage batchSize invoke s1 ctx)) :: ctx)).results,
       (consolidateStage (runStage batchSize invoke s1 ctx)).data
         <:+: r.rendered_prompt.data) := by
  constructor
  · rfl
  · intro htmpl hne r hr
    set key := stageOutputPh s1.stage_name with hkey
    set v := consolidateStage (runStage batchSize invoke s1 ctx) with hv
    obtain ⟨a, ha, hcase⟩ :=
      runStage_mem_prompt batchSize invoke s2 ((key, v) :: ctx) r hr
    rcases hcase with hdirect | ⟨p, hprev⟩
    · have h := render_contains_ph ((key, v) :: ctx) key
        a.user_prompt_template (htmpl a ha)
      rwa [lookupPh_cons_self, ← hdirect] at h
    · have h := render_contains_ph ((reservedPrevPh, p) :: (key, v) :: ctx) key
        a.user_prompt_template (htmpl a ha)
      rwa [lookupPh_cons_ne _ _ _ _ hne, lookupPh_cons_self, ← hprev] at h

/-- Witness for C2: the demo actor/critic pair — the critic's rendered prompt
contains the actor stage's consolidated output verbatim. -/
theorem stages_run_in_order_and_see_prior_output_witness :
    (consolidateStage (runStage 2 demoInvoker demoActorStage demoCtx)).data
      <:+: (invokeAgent demoInvoker criticAgent
              ((reservedPrevPh, "") ::
               (stageOutputPh demoActorStage.stage_name,
                consolidateStage (runStage 2 demoInvoker demoActorStage demoCtx)) ::
               demoCtx)).rendered_prompt.data :=
  (stages_run_in_order_and_see_prior_output 2 demoInvoker demoActorStage
      demoCriticStage demoCtx).2
    (by decide) (by decide) _ (List.mem_singleton.mpr rfl)

/-! ## C3: executed-agent counters -/

lemma runStages_lengths (batchSize : Nat) (invoke : Invoker) :
    ∀ (stages : List Stage) (ctx : PhContext),
      (runStages batchSize invoke stages ctx).map (fun sr => sr.results.length)
        = stages.map (fun st => st.agents.length)
  | [], _ => rfl
  | st :: rest, ctx => by
      simp only [runStages, List.map_cons, runStage_results_length,
        runStages_lengths batchSize invoke rest]

lemma runStages_length (batchSize : Nat) (invoke : Invoker)
    (stages : List Stage) (ctx : PhContext) :
    (runStages batchSize invoke stages ctx).length = stages.length := by
  have h := congrArg List.length (runStages_lengths batchSize invoke stages ctx)
  simpa using h

lemma sum_map_const {α : Type} (l : List α) (c : Nat) :
    (l.map (fun _ => c)).sum = l.length * c := by
  induction l with
  | nil => simp
  | cons a t ih => simp [ih, Nat.succ_mul, Nat.add_comm]

/-- The demo agent set: three parallel actors, then one critic. -/
def demoAgentSet : AgentSet :=
  { name := "demo-set", stages := [demoActorStage, demoCriticStage] }

/-- Three demo sections. -/
def demoSections : List DocSection :=
  [{ title := "S1", content := "c1" }, { title := "S2", content := "c2" },
   { title := "S3", content := "c3" }]

/-- C3: for every completed run, `total_agents_executed` equals the sum, over
all sections and all stages, of each stage's agent-instance count, even when
some invocations fail; with 3 sections and stages of 3 and 1 agent
instances, `total_stages_executed = 6` and `total_agents_executed = 12`. -/
theorem total_agents_executed_is_section_stage_sum :
    (∀ (batchSize : Nat) (invoke : Invoker) (title : String)
       (agentSet : AgentSet) (sections : List DocSection) (rag : String),
        (executePipeline batchSize invoke title agentSet sections rag).total_agents_executed
          = sections.length * (agentSet.stages.map (fun st => st.agents.length)).sum ∧
        (executePipeline batchSize invoke title agentSet sections rag).total_stages_executed
          = sections.length * agentSet.stages.length) ∧
    (executePipeline 2 demoInvoker "demo" demoAgentSet demoSections "").total_stages_executed
      = 6 ∧
    (executePipeline 2 demoInvoker "demo" demoAgentSet demoSections "").total_agents_executed
      = 12 := by
  refine ⟨fun batchSize invoke title agentSet sections rag => ⟨?_, ?_⟩, rfl, rfl⟩
  · show ((sections.map
        (runSection batchSize invoke agentSet.stages rag)).map (fun s =>
          (s.stage_results.map (fun sr => sr.results.length)).sum)).sum = _
    rw [List.map_map]
    have hcongr : ∀ sec : DocSection,
        ((runSection batchSize invoke agentSet.stages rag sec).stage_results.map
            (fun sr => sr.results.length)).sum
          = (agentSet.stages.map (fun st => st.agents.length)).sum := by
      intro sec
      unfold runSection
      simp only [runStages_lengths]
    calc (sections.map (fun sec =>
            ((runSection batchSize invoke agentSet.stages rag sec).stage_results.map
              (fun sr => sr.results.length)).sum)).sum
        = (sections.map (fun _ =>
            (agentSet.stages.map (fun st => st.agents.length)).sum)).sum := by
          rw [List.map_congr_left (fun sec _ => hcongr sec)]
      _ = sections.length * (agentSet.stages.map (fun st => st.agents.length)).sum :=
          sum_map_const _ _
  · show ((sections.map
        (runSection batchSize invoke agentSet.stages rag)).map
          (fun s => s.stage_results.length)).sum = _
    rw [List.map_map]
    have hcongr : ∀ sec : DocSection,
        (runSection batchSize invoke agentSet.stages rag sec).stage_results.length
          = agentSet.stages.length := by
      intro sec
      unfold runSection
      simp only [runStages_length]
    calc (sections.map (fun sec =>
            (runSection batchSize invoke agentSet.stages rag sec).stage_results.length)).sum
        = (sections.map (fun _ => agentSet.stages.length)).sum := by
          rw [List.map_congr_left (fun sec _ => hcongr sec)]
      _ = sections.length * agentSet.stages.length := sum_map_const _ _

/-! ## C4: job lifecycle -/

lemma find?_mapEntry (id id' : Nat) (g : PipelineJob → PipelineJob) :
    ∀ (l : List (Nat × PipelineJob)),
      ((l.map (fun p => if p.1 == id' then (p.1, g p.2) else p)).find?
          (fun p => p.1 == id)).map Prod.snd
        = ((l.find? (fun p => p.1 == id)).map Prod.snd).map
            (fun j => if id = id' then g j else j)
  | [] => rfl
  | e :: t => by
      by_cases hid : e.1 = id
      · by_cases hid' : e.1 = id'
        · simp [hid, hid', List.find?_cons_of_pos, hid ▸ hid']
        · have : ¬ id = id' := fun h => hid' (hid.trans h)
          simp [hid, hid', List.find?_cons_of_pos, this]
      · by_cases hid' : e.1 = id'
        · rw [List.map_cons, if_pos (by simpa using hid'),
            List.find?_cons_of_neg _ (by simpa using hid),
            List.find?_cons_of_neg _ (by simpa using hid)]
          exact find?_mapEntry id id' g t
        · rw [List.map_cons, if_neg (by simpa using hid'),
            List.find?_cons_of_neg _ (by simpa using hid),
            List.find?_cons_of_neg _ (by simpa using hid)]
          exact find?_mapEntry id id' g t

lemma findJob_mapJob (s : TrackerState) (id id' : Nat)
    (g : PipelineJob → PipelineJob) :
    findJob (mapJob s id' g) id
      = (findJob s id).map (fun j => if id = id' then g j else j) := by
  unfold findJob mapJob
  exact find?_mapEntry id id' g s.jobs

lemma findJob_submit (s : TrackerState) (id : Nat) (j : PipelineJob)
    (h : findJob s id = some j) : findJob (submitJob s).1 id = some j := by
  unfold findJob at h ⊢
  simp only [submitJob, List.find?_append]
  rcases hf : s.jobs.find? (fun p => p.1 == id) with _ | e
  · rw [hf] at h; simp at h
  · rw [hf] at h ⊢
    exact h

/-- Fresh submission: in a table whose keys are all below `nextId`, the job
created by `submitJob` is found under the returned id, in status QUEUED with
zero progress. -/
lemma findJob_submit_fresh (s : TrackerState)
    (hfresh : ∀ p ∈ s.jobs, p.1 < s.nextId) :
    findJob (submitJob s).1 (submitJob s).2
      = some { status := JobStatus.QUEUED, progress := 0,
               progress_message := "Queued", result := none, error := none } := by
  unfold findJob
  simp only [submitJob, List.find?_append]
  have hnone : s.jobs.find? (fun p => p.1 == s.nextId) = none := by
    rw [List.find?_eq_none]
    intro x hx
    simpa using Nat.ne_of_lt (hfresh x hx)
  simp [hnone, Option.or]

/-- Any tracker operation either leaves a job's status unchanged or moves it
along one legal transition. -/
lemma applyOp_status_step (s : TrackerState) (op : TrackerOp) (id : Nat)
    (j j' : PipelineJob) (h : findJob s id = some j)
    (h' : findJob (applyOp s op) id = some j') :
    j'.status = j.status ∨ jobStep j.status j'.status = true := by
  cases op with
  | submit =>
      rw [show applyOp s TrackerOp.submit = (submitJob s).1 from rfl,
        findJob_submit s id j h] at h'
      exact Or.inl (by rw [← Option.some_inj.mp h'])
  | start id' =>
      rw [show applyOp s (TrackerOp.start id') = startJob s id' from rfl] at h'
      unfold startJob at h'
      rw [findJob_mapJob, h] at h'
      simp only [Option.map_some'] at h'
      have hj' := Option.some_inj.mp h'
      by_cases hid : id = id'
      · rw [if_pos hid] at hj'
        by_cases hq : j.status = JobStatus.QUEUED
        · rw [if_pos hq] at hj'
          right
          rw [← hj', hq]
          rfl
        · rw [if_neg hq] at hj'
          exact Or.inl (by rw [← hj'])
      · rw [if_neg hid] at hj'
        exact Or.inl (by rw [← hj'])
  | progress id' p msg =>
      rw [show applyOp s (TrackerOp.progress id' p msg)
            = updateProgress s id' p msg from rfl] at h'
      unfold updateProgress at h'
      rw [findJob_mapJob, h] at h'
      simp only [Option.map_some'] at h'
      have hj' := Option.some_inj.mp h'
      by_cases hid : id = id'
      · rw [if_pos hid] at hj'
        by_cases hq : j.status = JobStatus.PROCESSING
        · rw [if_pos hq] at hj'
          exact Or.inl (by rw [← hj'])
        · rw [if_neg hq] at hj'
          exact Or.inl (by rw [← hj'])
      · rw [if_neg hid] at hj'
        exact Or.inl (by rw [← hj'])
  | complete id' res =>
      rw [show applyOp s (TrackerOp.complete id' res)
            = completeJob s id' res from rfl] at h'
      unfold completeJob at h'
      rw [findJob_mapJob, h] at h'
      simp only [Option.map_some'] at h'
      have hj' := Option.some_inj.mp h'
      by_cases hid : id = id'
      · rw [if_pos hid] at hj'
        by_cases hq : j.status = JobStatus.PROCESSING
        · rw [if_pos hq] at hj'
          right
          rw [← hj', hq]
          rfl
        · rw [if_neg hq] at hj'
          exact Or.inl (by rw [← hj'])
      · rw [if_neg hid] at hj'
        exact Or.inl (by rw [← hj'])
  | fail id' err =>
      rw [show applyOp s (TrackerOp.fail id' err) = failJob s id' err from rfl] at h'
      unfold failJob at h'
      rw [findJob_mapJob, h] at h'
      simp only [Option.map_some'] at h'
      have hj' := Option.some_inj.mp h'
      by_cases hid : id = id'
      · rw [if_pos hid] at hj'
        by_cases hq : j.status = JobStatus.PROCESSING
        · rw [if_pos hq] at hj'
          right
          rw [← hj', hq]
          rfl
        · rw [if_neg hq] at hj'
          exact Or.inl (by rw [← hj'])
      · rw [if_neg hid] at hj'
        exact Or.inl (by rw [← hj'])

/-- C4: every submitted job starts QUEUED; every tracker operation either
keeps a job's status or performs one legal transition; and every valid
status trace from QUEUED to a terminal status is exactly
QUEUED → PROCESSING → COMPLETED or QUEUED → PROCESSING → FAILED, so each
transition occurs exactly once and no other transition ever occurs. -/
theorem job_lifecycle_exactly_once :
    (∀ s : TrackerState, (∀ p ∈ s.jobs, p.1 < s.nextId) →
      (findJob (submitJob s).1 (submitJob s).2).map (fun j => j.status)
        = some JobStatus.QUEUED) ∧
    (∀ (s : TrackerState) (op : TrackerOp) (id : Nat) (j j' : PipelineJob),
      findJob s id = some j → findJob (applyOp s op) id = some j' →
      j'.status = j.status ∨ jobStep j.status j'.status = true) ∧
    (∀ tr : List JobStatus, validTrace tr = true →
      tr.head? = some JobStatus.QUEUED →
      (∃ st, tr.getLast? = some st ∧ st.isTerminal = true) →
      tr = [JobStatus.QUEUED, JobStatus.PROCESSING, JobStatus.COMPLETED] ∨
      tr = [JobStatus.QUEUED, JobStatus.PROCESSING, JobStatus.FAILED]) := by
  refine ⟨?_, ?_, ?_⟩
  · intro s hfresh
    rw [findJob_submit_fresh s hfresh]
    rfl
  · exact applyOp_status_step
  · intro tr hvalid hhead hlast
    cases tr with
    | nil => simp at hhead
    | cons a rest =>
        have ha : a = JobStatus.QUEUED := by simpa using hhead
        subst ha
        cases rest with
        | nil =>
            obtain ⟨st, hst, hterm⟩ := hlast
            simp only [List.getLast?_singleton, Option.some_inj] at hst
            rw [← hst] at hterm
            simp [JobStatus.isTerminal] at hterm
        | cons b rest2 =>
            have hv1 : jobStep JobStatus.QUEUED b = true ∧
                validTrace (b :: rest2) = true := by
              simpa [validTrace, Bool.and_eq_true] using hvalid
            have hb : b = JobStatus.PROCESSING := by
              cases b <;> simp_all [jobStep]
            subst hb
            cases rest2 with
            | nil =>
                obtain ⟨st, hst, hterm⟩ := hlast
                simp only [List.getLast?_cons_cons, List.getLast?_singleton,
                  Option.some_inj] at hst
                rw [← hst] at hterm
                simp [JobStatus.isTerminal] at hterm
            | cons c rest3 =>
                have hv2 : jobStep JobStatus.PROCESSING c = true ∧
                    validTrace (c :: rest3) = true := by
                  simpa [validTrace, Bool.and_eq_true] using hv1.2
                have hc : c = JobStatus.COMPLETED ∨ c = JobStatus.FAILED := by
                  cases c <;> simp_all [jobStep]
                cases rest3 with
                | nil =>
                    rcases hc with hc | hc <;> subst hc
                    · exact Or.inl rfl
                    · exact Or.inr rfl
                | cons d rest4 =>
                    have hv3 : jobStep c d = true ∧
                        validTrace (d :: rest4) = true := by
                      simpa [validTrace, Bool.and_eq_true] using hv2.2
                    rcases hc with hc | hc <;> subst hc <;>
                      simp [jobStep] at hv3

/-- A tracked job mid-run, used to instantiate the lifecycle theorem. -/
def demoTrackerJob : PipelineJob :=
  { status := JobStatus.PROCESSING, progress := 50, progress_message := "m",
    result := none, error := none }

/-- A tracker state holding the mid-run demo job under id 0. -/
def demoTracker : TrackerState := { jobs := [(0, demoTrackerJob)], nextId := 1 }

/-- Witness for C4: a fresh submission on the empty tracker is QUEUED, the
demo completion is a legal step, and the canonical completed trace has the
required shape. -/
theorem job_lifecycle_exactly_once_witness :
    (findJob (submitJob { jobs := [], nextId := 0 }).1
        (submitJob { jobs := [], nextId := 0 }).2).map (fun j => j.status)
      = some JobStatus.QUEUED ∧
    ({ status := JobStatus.COMPLETED, progress := 100,
       progress_message := "Completed",
       result := some (default : PipelineResult),
       error := none : PipelineJob }.status = demoTrackerJob.status ∨
     jobStep demoTrackerJob.status
       { status := JobStatus.COMPLETED, progress := 100,
         progress_message := "Completed",
         result := some (default : PipelineResult),
         error := none : PipelineJob }.status = true) ∧
    ([JobStatus.QUEUED, JobStatus.PROCESSING, JobStatus.COMPLETED]
        = [JobStatus.QUEUED, JobStatus.PROCESSING, JobStatus.COMPLETED] ∨
     [JobStatus.QUEUED, JobStatus.PROCESSING, JobStatus.COMPLETED]
        = [JobStatus.QUEUED, JobStatus.PROCESSING, JobStatus.FAILED]) :=
  ⟨job_lifecycle_exactly_once.1 { jobs := [], nextId := 0 } (by simp),
   job_lifecycle_exactly_once.2.1 demoTracker
     (TrackerOp.complete 0 default) 0 demoTrackerJob _ rfl rfl,
   job_lifecycle_exactly_once.2.2
     [JobStatus.QUEUED, JobStatus.PROCESSING, JobStatus.COMPLETED]
     (by decide) rfl ⟨JobStatus.COMPLETED, rfl, rfl⟩⟩

/-! ## C5: no mutation after a terminal state -/

/-- A job in a terminal status is untouched by any single tracker
operation. -/
lemma applyOp_terminal_fixed (s : TrackerState) (op : TrackerOp) (id : Nat)
    (j : PipelineJob) (h : findJob s id = some j)
    (hterm : j.status.isTerminal = true) :
    findJob (applyOp s op) id = some j := by
  have hq : j.status ≠ JobStatus.QUEUED := by
    cases hs : j.status <;> rw [hs] at hterm <;> simp [JobStatus.isTerminal] at hterm <;> simp
  have hp : j.status ≠ JobStatus.PROCESSING := by
    cases hs : j.status <;> rw [hs] at hterm <;> simp [JobStatus.isTerminal] at hterm <;> simp
  cases op with
  | submit => exact findJob_submit s id j h
  | start id' =>
      show findJob (startJob s id') id = some j
      unfold startJob
      rw [findJob_mapJob, h, Option.map_some']
      by_cases hid : id = id'
      · rw [if_pos hid, if_neg hq]
      · rw [if_neg hid]
  | progress id' p msg =>
      show findJob (updateProgress s id' p msg) id = some j
      unfold updateProgress
      rw [findJob_mapJob, h, Option.map_some']
      by_cases hid : id = id'
      · rw [if_pos hid, if_neg hp]
      · rw [if_neg hid]
  | complete id' res =>
      show findJob (completeJob s id' res) id = some j
      unfold completeJob
      rw [findJob_mapJob, h, Option.map_some']
      by_cases hid : id = id'
      · rw [if_pos hid, if_neg hp]
      · rw [if_neg hid]
  | fail id' err =>
      show findJob (failJob s id' err) id = some j
      unfold failJob
      rw [findJob_mapJob, h, Option.map_some']
      by_cases hid : id = id'
      · rw [if_pos hid, if_neg hp]
      · rw [if_neg hid]

/-- A job in a terminal status is untouched by any sequence of tracker
operations. -/
lemma foldl_applyOp_terminal_fixed (id : Nat) (j : PipelineJob)
    (hterm : j.status.isTerminal = true) :
    ∀ (ops : List TrackerOp) (s : TrackerState), findJob s id = some j →
      findJob (ops.foldl applyOp s) id = some j
  | [], _, h => h
  | op :: rest, s, h =>
      foldl_applyOp_terminal_fixed id j hterm rest (applyOp s op)
        (applyOp_terminal_fixed s op id j h hterm)

/-- C5: once a job is COMPLETED no further mutation occurs — under any
sequence of tracker operations the stored job is unchanged, so repeated
`status` calls return identical data and repeated `result` calls return
identical data. -/
theorem completed_job_immutable (s : TrackerState) (id : Nat)
    (j : PipelineJob) (h : findJob s id = some j)
    (hc : j.status = JobStatus.COMPLETED) (ops : List TrackerOp) :
    findJob (ops.foldl applyOp s) id = some j ∧
    statusQuery (ops.foldl applyOp s) id = statusQuery s id ∧
    resultQuery (ops.foldl applyOp s) id = resultQuery s id := by
  have hterm : j.status.isTerminal = true := by rw [hc]; rfl
  have hfix := foldl_applyOp_terminal_fixed id j hterm ops s h
  refine ⟨hfix, ?_, ?_⟩
  · unfold statusQuery
    rw [hfix, h]
  · unfold resultQuery
    rw [hfix, h]

/-- A demo completed job. -/
def demoCompletedJob : PipelineJob :=
  { status := JobStatus.COMPLETED, progress := 100,
    progress_message := "Completed", result := some default, error := none }

/-- A tracker state holding the demo completed job under id 0. -/
def demoCompletedTracker : TrackerState :=
  { jobs := [(0, demoCompletedJob)], nextId := 1 }

/-- Witness for C5: a burst of unrelated and related tracker operations
leaves the completed demo job and both queries unchanged. -/
theorem completed_job_immutable_witness :
    findJob
        ([TrackerOp.submit, TrackerOp.start 0,
          TrackerOp.progress 0 10 "x", TrackerOp.fail 0 "late"].foldl
          applyOp demoCompletedTracker) 0 = some demoCompletedJob ∧
    statusQuery
        ([TrackerOp.submit, TrackerOp.start 0,
          TrackerOp.progress 0 10 "x", TrackerOp.fail 0 "late"].foldl
          applyOp demoCompletedTracker) 0
      = statusQuery demoCompletedTracker 0 ∧
    resultQuery
        ([TrackerOp.submit, TrackerOp.start 0,
          TrackerOp.progress 0 10 "x", TrackerOp.fail 0 "late"].foldl
          applyOp demoCompletedTracker) 0
      = resultQuery demoCompletedTracker 0 :=
  completed_job_immutable demoCompletedTracker 0 demoCompletedJob rfl rfl
    [TrackerOp.submit, TrackerOp.start 0, TrackerOp.progress 0 10 "x",
     TrackerOp.fail 0 "late"]

/-! ## C6: progress invariants -/

lemma sectionProgress_mono (n k l : Nat) (h : k ≤ l) :
    sectionProgress k n ≤ sectionProgress l n :=
  Nat.div_le_div_right (Nat.mul_le_mul_right 100 h)

lemma sectionProgress_le_100 (n k : Nat) (h : k ≤ n) :
    sectionProgress k n ≤ 100 := by
  unfold sectionProgress
  calc k * 100 / n ≤ n * 100 / n := Nat.div_le_div_right (Nat.mul_le_mul_right 100 h)
    _ ≤ 100 := by
        rcases Nat.eq_zero_or_pos n with hn | hn
        · simp [hn]
        · rw [Nat.mul_div_cancel_left 100 hn]

lemma findJob_startJob (s : TrackerState) (id : Nat) :
    findJob (startJob s id) id
      = (findJob s id).map (fun j =>
          if j.status = JobStatus.QUEUED then
            { j with status := JobStatus.PROCESSING } else j) := by
  unfold startJob
  rw [findJob_mapJob]
  cases findJob s id <;> simp

lemma findJob_updateProgress (s : TrackerState) (id p : Nat) (msg : String) :
    findJob (updateProgress s id p msg) id
      = (findJob s id).map (fun j =>
          if j.status = JobStatus.PROCESSING then
            { j with progress := p, progress_message := msg } else j) := by
  unfold updateProgress
  rw [findJob_mapJob]
  cases findJob s id <;> simp

/-- After the runner has started and `k` of `n` sections have completed, the
job is PROCESSING with progress `k * 100 / n`. -/
lemma updatesAfter_progress (s : TrackerState) (id n : Nat) (j : PipelineJob)
    (h : findJob s id = some j) (hq : j.status = JobStatus.QUEUED)
    (h0 : j.progress = 0) :
    ∀ k : Nat, ∃ j', findJob (updatesAfter s id n k) id = some j' ∧
      j'.status = JobStatus.PROCESSING ∧ j'.progress = sectionProgress k n := by
  intro k
  induction k with
  | zero =>
      refine ⟨{ j with status := JobStatus.PROCESSING }, ?_, rfl, ?_⟩
      · unfold updatesAfter
        simp only [List.range_zero, List.foldl_nil]
        rw [findJob_startJob, h, Option.map_some', if_pos hq]
      · simp [sectionProgress, h0]
  | succ k ih =>
      obtain ⟨j', hj', hst, _⟩ := ih
      refine ⟨{ j' with progress := sectionProgress (k + 1) n, progress_message := "Section completed" }, ?_, hst, rfl⟩
      unfold updatesAfter at hj' ⊢
      rw [List.range_succ, List.foldl_append, List.foldl_cons, List.foldl_nil,
        findJob_updateProgress, hj', Option.map_some', if_pos hst]

/-- C6: while a job is not terminal its progress is non-decreasing and within
[0,100] — the per-section percentages are monotone in the number of
completed sections and bounded by 100 — and through the Job Tracker the
job's progress after each completed section equals
`completed_sections / total_sections × 100`. -/
theorem progress_monotone_bounded_percentage :
    (∀ n k l : Nat, k ≤ l → sectionProgress k n ≤ sectionProgress l n) ∧
    (∀ n k : Nat, k ≤ n → sectionProgress k n ≤ 100) ∧
    (∀ (s : TrackerState) (id n : Nat) (j : PipelineJob),
      findJob s id = some j → j.status = JobStatus.QUEUED → j.progress = 0 →
      ∀ k : Nat, ∃ j', findJob (updatesAfter s id n k) id = some j' ∧
        j'.status = JobStatus.PROCESSING ∧
        j'.progress = sectionProgress k n) :=
  ⟨sectionProgress_mono, sectionProgress_le_100, updatesAfter_progress⟩

/-- A freshly queued demo job. -/
def demoQueuedJob : PipelineJob :=
  { status := JobStatus.QUEUED, progress := 0, progress_message := "Queued",
    result := none, error := none }

/-- A tracker state holding the queued demo job under id 0. -/
def demoQueuedTracker : TrackerState :=
  { jobs := [(0, demoQueuedJob)], nextId := 1 }

/-- Witness for C6: with 4 sections, progress after 2 completed sections is
50, monotone from the value after 1, and bounded by 100. -/
theorem progress_monotone_bounded_percentage_witness :
    sectionProgress 1 4 ≤ sectionProgress 2 4 ∧
    sectionProgress 2 4 ≤ 100 ∧
    (∃ j', findJob (updatesAfter demoQueuedTracker 0 4 2) 0 = some j' ∧
      j'.status = JobStatus.PROCESSING ∧ j'.progress = sectionProgress 2 4) :=
  ⟨progress_monotone_bounded_percentage.1 4 1 2 (by decide),
   progress_monotone_bounded_percentage.2.1 4 2 (by decide),
   progress_monotone_bounded_percentage.2.2 demoQueuedTracker 0 4 demoQueuedJob
     rfl rfl rfl 2⟩

/-! ## C7: status/result query contract -/

/-- C7: `status(jobId)` fails with NotFound exactly for unknown ids;
`result(jobId)` succeeds exactly when the job exists and is COMPLETED, and
fails with NotReady exactly when the job exists but is not COMPLETED; and
the dashboard's status page requests the result endpoint exactly in the
COMPLETED branch. -/
theorem status_result_query_contract :
    (∀ (s : TrackerState) (id : Nat),
      statusQuery s id = Except.error ErrorKind.NotFound ↔ findJob s id = none) ∧
    (∀ (s : TrackerState) (id : Nat),
      (∃ r, resultQuery s id = Except.ok r) ↔
      (∃ j, findJob s id = some j ∧ j.status = JobStatus.COMPLETED)) ∧
    (∀ (s : TrackerState) (id : Nat),
      resultQuery s id = Except.error ErrorKind.NotReady ↔
      (∃ j, findJob s id = some j ∧ j.status ≠ JobStatus.COMPLETED)) ∧
    (∀ st : String,
      showPipelineStatusAction st = ClientAction.fetchResult ↔ st = "COMPLETED") := by
  refine ⟨?_, ?_, ?_, ?_⟩
  · intro s id
    cases hf : findJob s id <;> simp [statusQuery, hf]
  · intro s id
    cases hf : findJob s id with
    | none => simp [resultQuery, hf]
    | some j =>
        by_cases hc : j.status = JobStatus.COMPLETED <;>
          simp [resultQuery, hf, hc]
  · intro s id
    cases hf : findJob s id with
    | none => simp [resultQuery, hf]
    | some j =>
        by_cases hc : j.status = JobStatus.COMPLETED <;>
          simp [resultQuery, hf, hc]
  · intro st
    unfold showPipelineStatusAction
    by_cases h1 : st = "PROCESSING"
    · subst h1; simp
    · by_cases h2 : st = "QUEUED"
      · subst h2; simp
      · by_cases h3 : st = "COMPLETED"
        · subst h3; simp
        · by_cases h4 : st = "FAILED" <;> simp [h1, h2, h3, h4]

/-! ## C8: the submission gate -/

/-- Counterexample to C8 as stated: `"hello"` contains non-whitespace
characters, yet both dashboard submission gates reject it (its stripped
length, 5, is below the required 10), so it is never submitted. -/
theorem submission_gate_counterexample :
    agent_set_pipeline_rejects "hello" = true ∧
    direct_chat_pipeline_rejects "hello" = true ∧
    "hello".data.any (fun c => !isPySpace c) = true ∧
    (pyStrip "hello").length = 5 := by
  refine ⟨?_, ?_, ?_, ?_⟩ <;> decide

/-- C8 as amended: submission is rejected exactly when the whitespace-stripped
input is shorter than 10 characters; both pipeline tabs use the same gate;
and every whitespace-only input (in particular the empty input) is
rejected. The rejection is the synchronous check in the button handler,
before any request is posted. -/
theorem submission_gate_amended (text : String) :
    (agent_set_pipeline_rejects text = true ↔ (pyStrip text).length < 10) ∧
    direct_chat_pipeline_rejects text = agent_set_pipeline_rejects text ∧
    (text.data.all isPySpace = true → agent_set_pipeline_rejects text = true) := by
  have hmain : agent_set_pipeline_rejects text = true ↔ (pyStrip text).length < 10 := by
    unfold agent_set_pipeline_rejects
    rw [Bool.or_eq_true, decide_eq_true_iff]
    constructor
    · rintro (he | h)
      · have : text = "" := (String.isEmpty_iff text).mp he
        subst this
        decide
      · exact h
    · exact fun h => Or.inr h
  refine ⟨hmain, rfl, ?_⟩
  · intro hall
    rw [hmain]
    have hnil : text.data.dropWhile isPySpace = [] :=
      List.dropWhile_eq_nil_iff.mpr (List.all_eq_true.mp hall)
    show (String.mk (((text.data.dropWhile isPySpace).reverse.dropWhile
      isPySpace).reverse)).length < 10
    rw [hnil]
    decide

/-- Witness for C8 (amended): a whitespace-only input is rejected by the
gate. -/
theorem submission_gate_amended_witness :
    agent_set_pipeline_rejects "   " = true :=
  (submission_gate_amended "   ").2.2 (by decide)

/-! ## C9: two-step delete workflow -/

/-- C9: in every reachable state of the delete workflows, a permanent-delete
request (`soft_delete=false`) is issued only for a target whose active flag
is false — an active agent or agent set can only be deactivated first. -/
theorem permanent_delete_only_for_inactive :
    (∀ (agent : AgentRec) (clickDeactivate : Bool) (confirm_name : String)
       (confirm_check clickDelete : Bool) (i : Nat),
      ApiRequest.deleteAgentHard i ∈
          render_delete_agent agent clickDeactivate confirm_name confirm_check
            clickDelete →
      agent.is_active = false) ∧
    (∀ (s : AgentSetRec) (deleteFlag clickDeactivate : Bool)
       (confirm_name : String) (clickDelete : Bool) (i : Nat),
      ApiRequest.deleteAgentSetHard i ∈
          render_view_agent_sets_delete s deleteFlag clickDeactivate
            confirm_name clickDelete →
      s.is_active = false) := by
  constructor
  · intro agent clickDeactivate confirm_name confirm_check clickDelete i hmem
    cases hb : agent.is_active
    · rfl
    · exfalso
      unfold render_delete_agent at hmem
      by_cases h1 : agent.is_system_default
      · simp [h1] at hmem
      · rw [if_neg h1, if_pos (by rw [hb])] at hmem
        cases clickDeactivate <;> simp at hmem
  · intro s deleteFlag clickDeactivate confirm_name clickDelete i hmem
    cases hb : s.is_active
    · rfl
    · exfalso
      unfold render_view_agent_sets_delete at hmem
      by_cases h1 : (!s.is_system_default && deleteFlag) = true
      · rw [if_pos h1] at hmem
        unfold agent_set_delete_dialog at hmem
        rw [if_pos (by rw [hb])] at hmem
        cases clickDeactivate <;> simp at hmem
      · rw [if_neg h1] at hmem
        simp at hmem

/-- Witness for C9: the inactive demo agent and agent set do reach the
permanent-delete request, and the theorem reports them inactive. -/
theorem permanent_delete_only_for_inactive_witness :
    ({ id := 7, name := "old-agent", is_active := false,
       is_system_default := false : AgentRec }).is_active = false ∧
    ({ id := 9, name := "old-set", is_active := false,
       is_system_default := false : AgentSetRec }).is_active = false :=
  ⟨permanent_delete_only_for_inactive.1
      { id := 7, name := "old-agent", is_active := false,
        is_system_default := false }
      false "old-agent" true true 7 (List.mem_singleton.mpr rfl),
   permanent_delete_only_for_inactive.2
      { id := 9, name := "old-set", is_active := false,
        is_system_default := false }
      true false "old-set" true 9 (List.mem_singleton.mpr rfl)⟩

/-! ## C10: the stage builder's agent list -/

/-- C10: adding a stage with a non-empty name and a non-empty selection yields
a stage whose `agent_ids` is the first selected agent's id repeated the
chosen instance count (between 1 and 10) followed by each remaining selected
id once, in selection order; its length is the count plus the number of
remaining selected agents. -/
theorem stage_builder_agent_ids (stage_name stage_desc execution_mode : String)
    (first : Nat) (rest : List Nat) (count : Nat) (hname : stage_name ≠ "")
    (hlo : 1 ≤ count) (hhi : count ≤ 10) :
    ∃ cfg, addStageToPipeline stage_name stage_desc execution_mode
        (first :: rest) count = some cfg ∧
      cfg.agent_ids = List.replicate count first ++ rest ∧
      cfg.agent_ids.length = count + rest.length := by
  have hne : stage_name.isEmpty = false := by
    cases he : stage_name.isEmpty
    · rfl
    · exact absurd ((String.isEmpty_iff stage_name).mp he) hname
  refine ⟨{ stage_name := stage_name, agent_ids := buildStageAgentIds (first :: rest) count, execution_mode := execution_mode, description := if stage_desc.isEmpty then none else some stage_desc }, ?_, rfl, ?_⟩
  · unfold addStageToPipeline
    rw [if_pos (by simp [hne])]
  · show (buildStageAgentIds (first :: rest) count).length = count + rest.length
    unfold buildStageAgentIds
    rw [List.length_append, List.length_replicate]

/-- Witness for C10: three instances of agent 1 plus agents 2 and 3 yield
`[1, 1, 1, 2, 3]`, of length 5. -/
theorem stage_builder_agent_ids_witness :
    ∃ cfg, addStageToPipeline "actor" "" "parallel" [1, 2, 3] 3 = some cfg ∧
      cfg.agent_ids = List.replicate 3 1 ++ [2, 3] ∧
      cfg.agent_ids.length = 3 + 2 :=
  stage_builder_agent_ids "actor" "" "parallel" 1 [2, 3] 3 (by decide)
    (by decide) (by decide)

end GenaiPipeline
